import Mathlib

/-!
# Verification of the DavinciProjectFiles project-files tool

Shallow embedding of `api/app/clients/tools/structured/DavinciProjectFiles.js`:
a request/response bridge over one persistent WebSocket per user session.
The three variants of the class in the repository share identical logic for
everything modelled here.

Modelling conventions:
* JSON values are the inductive `Json`; a JavaScript value that may be
  `undefined` is an `Option Json` with `none` playing the role of `undefined`.
* The pending-request table `this.pending_requests` is modelled as the list of
  its keys plus a log of continuation completions: instead of holding opaque
  resolve/reject closures, the model records which correlation id was
  completed with which outcome, in order.
* Event-loop concurrency is modelled by explicit event lists folded over the
  state: JavaScript's single-threaded event loop runs handlers atomically in
  some order, which is exactly a fold over an arbitrary event sequence.
* `Math.random().toString(36).substring(2, 15)` is modelled by taking the
  generated correlation id as a parameter.
-/

namespace DavinciProjectFiles

/-- JSON values, as produced by `JSON.parse` / consumed by `JSON.stringify`.
Numbers are modelled as integers (no claim exercises non-integer numbers). -/
inductive Json where
  | null : Json
  | bool : Bool → Json
  | num : Int → Json
  | str : String → Json
  | arr : List Json → Json
  | obj : List (String × Json) → Json

/-- Hexadecimal digit character, lowercase, as used by JSON string escapes. -/
def hexDigit (n : Nat) : Char :=
  if n < 10 then Char.ofNat (48 + n) else Char.ofNat (87 + n)

/-- Escaping of one character inside a JSON string literal, following
`JSON.stringify`: quote, backslash, the named control escapes, and `\u00XX`
for the remaining control characters. -/
def escapeChar (c : Char) : String :=
  if c = '"' then "\\\""
  else if c = '\\' then "\\\\"
  else if c = '\x08' then "\\b"
  else if c = '\x0c' then "\\f"
  else if c = '\n' then "\\n"
  else if c = '\r' then "\\r"
  else if c = '\t' then "\\t"
  else if c.toNat < 32 then
    "\\u00" ++ String.singleton (hexDigit (c.toNat / 16)) ++
      String.singleton (hexDigit (c.toNat % 16))
  else String.singleton c

/-- JSON string literal quoting, following `JSON.stringify` on strings. -/
def quoteStr (s : String) : String :=
  "\"" ++ String.join (s.toList.map escapeChar) ++ "\""

mutual

/-- The function `JSON.stringify` on a (defined) JSON value. -/
def jstringify : Json → String
  | .null => "null"
  | .bool b => if b then "true" else "false"
  | .num n => toString n
  | .str s => quoteStr s
  | .arr xs => "[" ++ jsonListStr xs ++ "]"
  | .obj fs => "\x7b" ++ jsonObjStr fs ++ "\x7d"

/-- Comma-separated serialization of the elements of a JSON array. -/
def jsonListStr : List Json → String
  | [] => ""
  | [x] => jstringify x
  | x :: y :: xs => jstringify x ++ "," ++ jsonListStr (y :: xs)

/-- Comma-separated serialization of the members of a JSON object. -/
def jsonObjStr : List (String × Json) → String
  | [] => ""
  | [(k, v)] => quoteStr k ++ ":" ++ jstringify v
  | (k, v) :: f :: fs => quoteStr k ++ ":" ++ jstringify v ++ "," ++ jsonObjStr (f :: fs)

end

/-- The function `JSON.stringify` on a JavaScript value that may be `undefined` (`none`):
`JSON.stringify(undefined)` is `undefined`, not a string. -/
def stringifyJs (v : Option Json) : Option String :=
  v.map jstringify

/-- Insertion into a JavaScript object under literal/spread semantics: an
existing key keeps its position and gets the new value, a fresh key is
appended. -/
def setField : List (String × Json) → String → Json → List (String × Json)
  | [], k, v => [(k, v)]
  | (k', v') :: rest, k, v =>
    if k' = k then (k', v) :: rest else (k', v') :: setField rest k v

/-- Field lookup in a JavaScript object (first occurrence of the key). -/
def lookupField : List (String × Json) → String → Option Json
  | [], _ => none
  | (k', v) :: rest, k => if k' = k then some v else lookupField rest k

/-- The outbound request envelope built by `sendWebSocketRequest`
(DavinciProjectFiles.js lines 124-129):
`const request = { request_id, sender_type: 'plugin', type, ...payload };`
— the three fixed fields in literal order, then the payload spread, which
overrides by key. -/
def buildRequest (rid ty : String) (payload : List (String × Json)) :
    List (String × Json) :=
  payload.foldl (fun o kv => setField o kv.1 kv.2)
    [("request_id", Json.str rid), ("sender_type", Json.str "plugin"),
     ("type", Json.str ty)]

/-- The verification envelope sent by the `open` handler
(DavinciProjectFiles.js lines 69-75): fields in literal order
`sender_type`, `type`, `request_id`. -/
def verifyMessage : List (String × Json) :=
  [("sender_type", Json.str "plugin"), ("type", Json.str "connection_verify"),
   ("request_id", Json.str "initial-connection")]

/-- An inbound response envelope, as parsed by the message handler:
`request_id` may be absent (`none`); `data` is `none` when absent
(JavaScript `undefined`); `error` is an optional string per the protocol. -/
structure Resp where
  request_id : Option String
  data : Option Json
  error : Option String

/-- A completion of a pending request's continuation: `resolve(data)`
(the value may be `undefined` = `none`) or `reject(new Error(msg))`. -/
inductive Outcome where
  | resolved : Option Json → Outcome
  | rejected : String → Outcome

/-- JavaScript truthiness of `response.error` for an optional string field:
truthy exactly when present and non-empty. -/
def errTruthy : Option String → Bool
  | none => false
  | some e => e ≠ ""

/-- The completion applied by the message handler once an envelope matches a
pending entry (lines 83-87): `if (response.error) reject(new
Error(response.error)); else resolve(response.data);`. -/
def respOutcome (r : Resp) : Outcome :=
  match r.error with
  | some e => if e ≠ "" then .rejected e else .resolved r.data
  | none => .resolved r.data

/-- The Request Correlator's observable state: the keys currently in
`this.pending_requests`, and the log of continuation completions performed so
far (correlation id paired with the outcome delivered to that caller). -/
structure CorrState where
  pending : List String
  completed : List (String × Outcome)

/-- The `message` event handler (lines 78-93): parse the frame, and if the
envelope carries a truthy `request_id` that is a key of the pending table,
complete that entry per `respOutcome` and delete it; otherwise do nothing.
(A JSON parse failure is logged and dropped, i.e. produces no event.) -/
def handleMessage (s : CorrState) (r : Resp) : CorrState :=
  match r.request_id with
  | none => s
  | some rid =>
    if rid ≠ "" ∧ rid ∈ s.pending then
      { pending := s.pending.erase rid,
        completed := s.completed ++ [(rid, respOutcome r)] }
    else s

/-- The 30-second timeout handler armed per request (lines 134-140): if the
id is still in the table, reject it with `Request timeout` and delete it;
otherwise do nothing. -/
def handleTimer (s : CorrState) (id : String) : CorrState :=
  if id ∈ s.pending then
    { pending := s.pending.erase id,
      completed := s.completed ++ [(id, Outcome.rejected "Request timeout")] }
  else s

/-- An event delivered to the correlator by the event loop: an inbound
parsed frame, or the firing of some request's 30-second timer. -/
inductive Event where
  | message : Resp → Event
  | timer : String → Event

/-- One event-loop dispatch. -/
def step (s : CorrState) : Event → CorrState
  | .message r => handleMessage s r
  | .timer id => handleTimer s id

/-- Processing a sequence of events in event-loop order. -/
def run (s : CorrState) (es : List Event) : CorrState :=
  es.foldl step s

/-- Number of completions delivered to the caller with correlation id `id`. -/
def countFor (l : List (String × Outcome)) (id : String) : Nat :=
  (l.filter (fun p => p.1 = id)).length

/-- Number of completions of id `id` in state `s`. -/
def countCompleted (s : CorrState) (id : String) : Nat :=
  countFor s.completed id

/-- Correlator invariant: the table keys are distinct, a caller still in the
table has not been completed, and no caller is ever completed twice. -/
def Inv (s : CorrState) : Prop :=
  s.pending.Nodup ∧
    ∀ id, (id ∈ s.pending → countCompleted s id = 0) ∧ countCompleted s id ≤ 1

/-- The guard of `sendWebSocketRequest` (line 117):
`!this.ws || this.ws.readyState !== WebSocket.OPEN`. The socket handle is an
`Option Nat` carrying the readyState (`WebSocket.OPEN = 1`). -/
def wsNotOpen : Option Nat → Bool
  | none => true
  | some rs => rs ≠ 1

/-- The observable effects of one call to `sendWebSocketRequest`:
whether it rejected synchronously (with which message), which key it added to
the pending table, which frames it wrote to the socket, and which timeout it
armed (id and delay in milliseconds). -/
structure SendOutcome where
  immediateReject : Option String
  newEntry : Option String
  framesSent : List (List (String × Json))
  timerArmed : Option (String × Nat)

/-- The method `sendWebSocketRequest(type, payload)` (lines 113-144), with the generated
correlation id `rid` a parameter: if the socket is absent or not OPEN, reject
immediately with `WebSocket is not connected` — no frame, no table entry, no
timer; otherwise store the entry, arm the 30000 ms timeout, and send the
envelope. -/
def sendWebSocketRequest (ws : Option Nat) (rid ty : String)
    (payload : List (String × Json)) : SendOutcome :=
  if wsNotOpen ws then
    { immediateReject := some "WebSocket is not connected", newEntry := none,
      framesSent := [], timerArmed := none }
  else
    { immediateReject := none, newEntry := some rid,
      framesSent := [buildRequest rid ty payload],
      timerArmed := some (rid, 30000) }

/-- The input object of `_call`: the zod schema's `function` selector and the
two optional string fields. -/
structure CallInput where
  function : String
  project_name : Option String
  file_path : Option String

/-- JavaScript truthiness of an optional string argument
(`!input.project_name` is true when the field is absent or empty). -/
def strTruthy : Option String → Bool
  | none => false
  | some s => s ≠ ""

/-- Result of the synchronous part of `_call`: either a validation/dispatch
error thrown before any network activity, or the wire operation type plus
payload handed to `sendWebSocketRequest`. -/
inductive DispatchResult where
  | threw : String → DispatchResult
  | invoke : String → List (String × Json) → DispatchResult

/-- The `_call(input)` dispatcher (lines 181-202): switch on
`input.function`; `getProjectTree` requires a truthy `project_name`;
`getProjectFile` requires a truthy `project_name` first, then a truthy
`file_path`; anything else throws `Invalid function`. On success it names the
wire `type` and payload sent by `_getProjects` / `_getProjectTree` /
`_getProjectFile` (lines 146-179). -/
def toolCall (input : CallInput) : DispatchResult :=
  if input.function = "getProjects" then
    .invoke "get_projects" []
  else if input.function = "getProjectTree" then
    if ¬ strTruthy input.project_name then .threw "Project name is required"
    else .invoke "get_project_tree"
      [("project_name", Json.str (input.project_name.getD ""))]
  else if input.function = "getProjectFile" then
    if ¬ strTruthy input.project_name then .threw "Project name is required"
    else if ¬ strTruthy input.file_path then .threw "File path is required"
    else .invoke "get_file"
      [("project_name", Json.str (input.project_name.getD "")),
       ("file_path", Json.str (input.file_path.getD ""))]
  else
    .threw ("Invalid function: " ++ input.function)

/-- The frames a full `_call` invocation writes to the socket with handle
`ws`, generated id `rid`: none when validation throws, otherwise whatever
`sendWebSocketRequest` sends. -/
def callFrames (ws : Option Nat) (rid : String) (input : CallInput) :
    List (List (String × Json)) :=
  match toolCall input with
  | .threw _ => []
  | .invoke ty payload => (sendWebSocketRequest ws rid ty payload).framesSent

/-- What a facade operation returns once its awaited request completes
(lines 146-179): on resolve, `return JSON.stringify(response)` — `ok none`
is the JavaScript `undefined` return when the resolved value was `undefined`;
on reject, the catch block rethrows the same error. -/
inductive CallResult where
  | ok : Option String → CallResult
  | err : String → CallResult

/-- The return value of `_getProjects` / `_getProjectTree` /
`_getProjectFile` as a function of the awaited request's completion. -/
def finishFacadeCall : Outcome → CallResult
  | .resolved v => .ok (stringifyJs v)
  | .rejected m => .err m

/-- Connection Manager state: whether `this.ws` holds a handle, how many
socket `close` events are queued for delivery, how many reconnection
`setTimeout` timers are scheduled, and how many sockets have been constructed
in total. -/
structure ConnState where
  ws : Bool
  pendingCloseEvents : Nat
  reconnectTimers : Nat
  socketsOpened : Nat

/-- The method `connectWebSocket()` (lines 50-111): a no-op while `this.ws` is set,
otherwise constructs a new socket and stores the handle. -/
def connectWebSocket (s : ConnState) : ConnState :=
  if s.ws then s
  else { s with ws := true, socketsOpened := s.socketsOpened + 1 }

/-- The method `cleanup()` (lines 204-209): if a handle exists, call `close()` on it —
which queues the socket's `close` event for later delivery — and clear
`this.ws`. It touches nothing else: not the pending table, no timer. -/
def cleanupConn (s : ConnState) : ConnState :=
  if s.ws then
    { s with ws := false, pendingCloseEvents := s.pendingCloseEvents + 1 }
  else s

/-- Delivery of a queued socket `close` event to the handler registered at
lines 95-100: clear `this.ws` and schedule `setTimeout(() =>
this.connectWebSocket(), 5000)`. -/
def deliverClose (s : ConnState) : ConnState :=
  if s.pendingCloseEvents > 0 then
    { s with pendingCloseEvents := s.pendingCloseEvents - 1, ws := false,
             reconnectTimers := s.reconnectTimers + 1 }
  else s

/-- Firing of a scheduled reconnection timer: run `connectWebSocket()`. -/
def fireReconnect (s : ConnState) : ConnState :=
  if s.reconnectTimers > 0 then
    connectWebSocket { s with reconnectTimers := s.reconnectTimers - 1 }
  else s

/-- The whole tool's state: Connection Manager plus Request Correlator. -/
structure ToolState where
  conn : ConnState
  corr : CorrState

/-- The method `cleanup()` on the whole tool: its body (lines 204-209) mentions only
`this.ws`, so the correlator state — the pending table and its armed
per-request timers — is untouched. -/
def cleanupTool (s : ToolState) : ToolState :=
  { conn := cleanupConn s.conn, corr := s.corr }

/-! ## Helper lemmas about the correlator's event handlers -/

/-- An envelope without `request_id` is silently ignored. -/
theorem hm_none (s : CorrState) (r : Resp) (h : r.request_id = none) :
    handleMessage s r = s := by
  unfold handleMessage; rw [h]

/-- A matching envelope (truthy `request_id` present in the table) completes
the entry with `respOutcome` and deletes it. -/
theorem hm_pos (s : CorrState) (r : Resp) (rid : String) (h : r.request_id = some rid)
    (hc : rid ≠ "" ∧ rid ∈ s.pending) :
    handleMessage s r =
      { pending := s.pending.erase rid,
        completed := s.completed ++ [(rid, respOutcome r)] } := by
  unfold handleMessage; rw [h]; exact if_pos hc

/-- An envelope whose `request_id` is falsy or not in the table is ignored. -/
theorem hm_neg (s : CorrState) (r : Resp) (rid : String) (h : r.request_id = some rid)
    (hc : ¬ (rid ≠ "" ∧ rid ∈ s.pending)) :
    handleMessage s r = s := by
  unfold handleMessage; rw [h]; exact if_neg hc

/-- A timer firing while its id is still pending rejects with
`Request timeout` and deletes the entry. -/
theorem ht_pos (s : CorrState) (id : String) (h : id ∈ s.pending) :
    handleTimer s id =
      { pending := s.pending.erase id,
        completed := s.completed ++ [(id, Outcome.rejected "Request timeout")] } := by
  unfold handleTimer; exact if_pos h

/-- A timer firing after its entry was removed is a no-op. -/
theorem ht_neg (s : CorrState) (id : String) (h : id ∉ s.pending) :
    handleTimer s id = s := by
  unfold handleTimer; exact if_neg h

/-- Appending one completion to the log bumps exactly that id's count. -/
theorem countFor_append (l : List (String × Outcome)) (rid : String) (out : Outcome)
    (id : String) :
    countFor (l ++ [(rid, out)]) id = countFor l id + (if rid = id then 1 else 0) := by
  simp [countFor, List.filter_append]
  split <;> simp [*]

/-- Any event-loop dispatch either leaves the correlator untouched or
completes exactly one pending entry — rejected by its own timer, or completed
per `respOutcome` by an envelope carrying its id — and deletes it. -/
theorem step_cases (s : CorrState) (e : Event) :
    step s e = s ∨
    ∃ rid out, rid ∈ s.pending ∧
      step s e = { pending := s.pending.erase rid,
                   completed := s.completed ++ [(rid, out)] } ∧
      ((e = .timer rid ∧ out = .rejected "Request timeout") ∨
       (∃ r, e = .message r ∧ r.request_id = some rid ∧ out = respOutcome r)) := by
  cases e with
  | message r =>
    cases h : r.request_id with
    | none => exact Or.inl (hm_none s r h)
    | some rid =>
      by_cases hc : rid ≠ "" ∧ rid ∈ s.pending
      · exact Or.inr ⟨rid, respOutcome r, hc.2, hm_pos s r rid h hc,
          Or.inr ⟨r, rfl, h, rfl⟩⟩
      · exact Or.inl (hm_neg s r rid h hc)
  | timer id =>
    by_cases hc : id ∈ s.pending
    · exact Or.inr ⟨id, _, hc, ht_pos s id hc, Or.inl ⟨rfl, rfl⟩⟩
    · exact Or.inl (ht_neg s id hc)

/-- One dispatch preserves the correlator invariant. -/
theorem inv_step (s : CorrState) (e : Event) (h : Inv s) : Inv (step s e) := by
  rcases step_cases s e with heq | ⟨rid, out, hmem, heq, -⟩
  · rw [heq]; exact h
  · rw [heq]
    obtain ⟨hnd, hcnt⟩ := h
    refine ⟨hnd.erase rid, fun id => ?_⟩
    constructor
    · intro hid
      have hid' := (List.Nodup.mem_erase_iff hnd).mp hid
      show countFor (s.completed ++ [(rid, out)]) id = 0
      rw [countFor_append]
      have h0 : countFor s.completed id = 0 := (hcnt id).1 hid'.2
      simp [h0, (Ne.symm hid'.1 : rid ≠ id)]
    · show countFor (s.completed ++ [(rid, out)]) id ≤ 1
      rw [countFor_append]
      by_cases hin : rid = id
      · subst hin
        have h0 : countFor s.completed rid = 0 := (hcnt rid).1 hmem
        simp [h0]
      · have h1 : countFor s.completed id ≤ 1 := (hcnt id).2
        simp [hin]
        exact h1

/-- Any event sequence preserves the correlator invariant. -/
theorem inv_run (s : CorrState) (es : List Event) (h : Inv s) : Inv (run s es) := by
  induction es generalizing s with
  | nil => exact h
  | cons e es ih => exact ih (step s e) (inv_step s e h)

/-- An id not in the table gains no completion and stays out of the table
across one dispatch. -/
theorem step_count_stable (s : CorrState) (e : Event) (id : String)
    (hid : id ∉ s.pending) :
    countCompleted (step s e) id = countCompleted s id ∧ id ∉ (step s e).pending := by
  rcases step_cases s e with heq | ⟨rid, out, hmem, heq, -⟩
  · rw [heq]; exact ⟨rfl, hid⟩
  · rw [heq]
    have hne : rid ≠ id := fun hh => hid (hh ▸ hmem)
    constructor
    · show countFor (s.completed ++ [(rid, out)]) id = _
      rw [countFor_append]; simp only [hne, if_false]; rfl
    · intro hmem2
      exact hid (List.mem_of_mem_erase hmem2)

/-- An id not in the table gains no completion and stays out of the table
across any event sequence. -/
theorem run_count_stable (s : CorrState) (es : List Event) (id : String)
    (hid : id ∉ s.pending) :
    countCompleted (run s es) id = countCompleted s id ∧ id ∉ (run s es).pending := by
  induction es generalizing s with
  | nil => exact ⟨rfl, hid⟩
  | cons e es ih =>
    have h1 := step_count_stable s e id hid
    have h2 := ih (step s e) h1.2
    exact ⟨h2.1.trans h1.1, h2.2⟩

/-- A pending entry whose timer event occurs in the processed sequence ends
up completed exactly once and removed from the table. -/
theorem run_timer_completes (s : CorrState) (es : List Event) (id : String)
    (hinv : Inv s) (hid : id ∈ s.pending) (ht : Event.timer id ∈ es) :
    countCompleted (run s es) id = 1 ∧ id ∉ (run s es).pending := by
  induction es generalizing s with
  | nil => cases ht
  | cons e es ih =>
    show countCompleted (run (step s e) es) id = 1 ∧ id ∉ (run (step s e) es).pending
    by_cases hid2 : id ∈ (step s e).pending
    · have he : Event.timer id ∈ es := by
        rcases List.mem_cons.mp ht with hh | hh
        · exfalso
          have hpend : (step s e).pending = s.pending.erase id := by
            rw [← hh]
            rw [show step s (Event.timer id) = handleTimer s id from rfl,
                ht_pos s id hid]
          rw [hpend] at hid2
          exact ((List.Nodup.mem_erase_iff hinv.1).mp hid2).1 rfl
        · exact hh
      exact ih (step s e) (inv_step s e hinv) hid2 he
    · have hcount : countCompleted (step s e) id = 1 := by
        rcases step_cases s e with heq | ⟨rid, out, hmem, heq, -⟩
        · rw [heq] at hid2; exact absurd hid hid2
        · have hridid : id = rid := by
            by_contra hne
            exact hid2 (heq ▸ (List.Nodup.mem_erase_iff hinv.1).mpr ⟨hne, hid⟩)
          subst hridid
          rw [heq]
          show countFor (s.completed ++ [(id, out)]) id = 1
          rw [countFor_append]
          have h0 : countFor s.completed id = 0 := (hinv.2 id).1 hid
          simp [h0]
      have hst := run_count_stable (step s e) es id hid2
      exact ⟨hst.1.trans hcount, hst.2⟩

/-- Provenance of completions: every completion present after processing a
sequence was already there, or was delivered by a message event whose
envelope carried exactly that correlation id, or by that id's own timer. -/
theorem run_completion_source (s : CorrState) (es : List Event) (i : String)
    (out : Outcome) (h : (i, out) ∈ (run s es).completed) :
    (i, out) ∈ s.completed ∨
    (∃ r, Event.message r ∈ es ∧ r.request_id = some i ∧ out = respOutcome r) ∨
    (Event.timer i ∈ es ∧ out = Outcome.rejected "Request timeout") := by
  induction es generalizing s with
  | nil => exact Or.inl h
  | cons e es ih =>
    rcases ih (step s e) h with hmem | ⟨r, hr, hrid, hout⟩ | ⟨hti, hout⟩
    · rcases step_cases s e with heq | ⟨rid, out', hpend, heq, htrig⟩
      · rw [heq] at hmem; exact Or.inl hmem
      · rw [heq] at hmem
        rcases List.mem_append.mp hmem with hmem | hmem
        · exact Or.inl hmem
        · have hpair : i = rid ∧ out = out' := by
            have := List.mem_singleton.mp hmem
            exact ⟨congrArg Prod.fst this, congrArg Prod.snd this⟩
          obtain ⟨hi, ho⟩ := hpair
          rcases htrig with ⟨he, hout'⟩ | ⟨r, he, hrid, hout'⟩
          · exact Or.inr (Or.inr ⟨by rw [he, hi]; exact List.mem_cons_self _ _,
              by rw [ho, hout']⟩)
          · exact Or.inr (Or.inl ⟨r, by rw [he]; exact List.mem_cons_self _ _,
              by rw [hrid, hi], by rw [ho, hout']⟩)
    · exact Or.inr (Or.inl ⟨r, List.mem_cons_of_mem e hr, hrid, hout⟩)
    · exact Or.inr (Or.inr ⟨List.mem_cons_of_mem e hti, hout⟩)

/-- Claim C1, counterexample: no outbound envelope carries a field named
`sender_role` — not the envelopes of the three facade operations and not the
connection-verification message; the field the code writes is `sender_type`. -/
theorem no_sender_role_field :
    lookupField (buildRequest "r1" "get_projects" []) "sender_role" = none ∧
    lookupField (buildRequest "r2" "get_project_tree"
      [("project_name", Json.str "proj1")]) "sender_role" = none ∧
    lookupField (buildRequest "r3" "get_file"
      [("project_name", Json.str "proj1"), ("file_path", Json.str "a.txt")])
      "sender_role" = none ∧
    lookupField verifyMessage "sender_role" = none :=
  ⟨rfl, rfl, rfl, rfl⟩

/-- Claim C1 (amended): for every request sent by the Request Correlator —
including the three facade operations' payload shapes — the outbound envelope
is exactly `request_id`, `sender_type: "plugin"`, `type`, followed by the
payload fields; every outbound envelope (the verification message included)
carries `sender_type` with string value `"plugin"`. -/
theorem envelope_sender_type_plugin (rid ty pn fp : String) :
    buildRequest rid ty [] =
      [("request_id", Json.str rid), ("sender_type", Json.str "plugin"),
       ("type", Json.str ty)] ∧
    buildRequest rid ty [("project_name", Json.str pn)] =
      [("request_id", Json.str rid), ("sender_type", Json.str "plugin"),
       ("type", Json.str ty), ("project_name", Json.str pn)] ∧
    buildRequest rid ty [("project_name", Json.str pn), ("file_path", Json.str fp)] =
      [("request_id", Json.str rid), ("sender_type", Json.str "plugin"),
       ("type", Json.str ty), ("project_name", Json.str pn),
       ("file_path", Json.str fp)] ∧
    lookupField (buildRequest rid ty []) "sender_type" = some (Json.str "plugin") ∧
    lookupField (buildRequest rid ty [("project_name", Json.str pn)])
      "sender_type" = some (Json.str "plugin") ∧
    lookupField (buildRequest rid ty
      [("project_name", Json.str pn), ("file_path", Json.str fp)])
      "sender_type" = some (Json.str "plugin") ∧
    lookupField verifyMessage "sender_type" = some (Json.str "plugin") :=
  ⟨rfl, rfl, rfl, rfl, rfl, rfl, rfl⟩

/-- Claim C2: every pending entry is completed at most once over any event
sequence; when its 30-second timer event occurs in the sequence it is
completed exactly once and removed; and once an entry is absent, both the
timer handler and a matching message are no-ops. -/
theorem pending_exactly_once (s : CorrState) (es : List Event) (id : String)
    (hinv : Inv s) :
    countCompleted (run s es) id ≤ 1 ∧
    (id ∈ s.pending → Event.timer id ∈ es →
      countCompleted (run s es) id = 1 ∧ id ∉ (run s es).pending) ∧
    (id ∉ (run s es).pending →
      handleTimer (run s es) id = run s es ∧
      ∀ r : Resp, r.request_id = some id → handleMessage (run s es) r = run s es) :=
  ⟨((inv_run s es hinv).2 id).2,
   fun hid ht => run_timer_completes s es id hinv hid ht,
   fun hnp => ⟨ht_neg _ id hnp,
     fun r hr => hm_neg _ r id hr (fun hc => hnp hc.2)⟩⟩

/-- Witness for C2 at a concrete run: one pending entry `"a"`, whose timer
fires twice and whose (late) response then arrives: completed exactly once. -/
theorem pending_exactly_once_witness :
    Inv ⟨["a"], []⟩ ∧
    countCompleted (run ⟨["a"], []⟩
      [Event.timer "a", Event.timer "a",
       Event.message ⟨some "a", some (Json.str "late"), none⟩]) "a" = 1 ∧
    "a" ∉ (run ⟨["a"], []⟩
      [Event.timer "a", Event.timer "a",
       Event.message ⟨some "a", some (Json.str "late"), none⟩]).pending := by
  have hinv : Inv (⟨["a"], []⟩ : CorrState) := by
    refine ⟨by decide, fun id => ⟨fun _ => rfl, ?_⟩⟩
    show countFor [] id ≤ 1
    simp [countFor]
  have h := (pending_exactly_once ⟨["a"], []⟩
    [Event.timer "a", Event.timer "a",
     Event.message ⟨some "a", some (Json.str "late"), none⟩] "a" hinv).2.1
    (List.mem_singleton_self "a") (List.mem_cons_self _ _)
  exact ⟨hinv, h.1, h.2⟩

/-- Claim C3 (code bug): after `cleanup()` on an open connection, delivery of
the socket's own close event schedules a reconnection, and when that timer
fires a brand-new socket is constructed — teardown is not absorbing. The
three equalities trace `cleanup`, the close-handler, and the reconnect timer
on the concrete state with one open socket. -/
theorem reconnect_after_cleanup :
    cleanupConn ⟨true, 0, 0, 1⟩ = ⟨false, 1, 0, 1⟩ ∧
    deliverClose ⟨false, 1, 0, 1⟩ = ⟨false, 0, 1, 1⟩ ∧
    fireReconnect ⟨false, 0, 1, 1⟩ = ⟨true, 0, 0, 2⟩ :=
  ⟨rfl, rfl, rfl⟩

/-- Claim C4, counterexample: an inbound envelope whose `error` field is
present but the empty string resolves (with `data`) instead of rejecting —
the handler tests JavaScript truthiness of `error`, not its presence. -/
theorem empty_error_resolves :
    handleMessage ⟨["id1"], []⟩ ⟨some "id1", some (Json.str "d"), some ""⟩ =
      ⟨[], [("id1", Outcome.resolved (some (Json.str "d")))]⟩ :=
  rfl

/-- Claim C4 (amended): for a matching inbound envelope, a non-empty `error`
string rejects the pending request with exactly that string as the message,
and an absent or empty `error` field resolves it with the `data` field. -/
theorem error_field_resolution (s : CorrState) (rid : String) (d : Option Json)
    (err : Option String) (hrid : rid ≠ "") (hmem : rid ∈ s.pending) :
    handleMessage s ⟨some rid, d, err⟩ =
      { pending := s.pending.erase rid,
        completed := s.completed ++ [(rid, respOutcome ⟨some rid, d, err⟩)] } ∧
    (∀ e, err = some e → e ≠ "" →
      respOutcome ⟨some rid, d, err⟩ = Outcome.rejected e) ∧
    (err = none ∨ err = some "" →
      respOutcome ⟨some rid, d, err⟩ = Outcome.resolved d) := by
  refine ⟨hm_pos s _ rid rfl ⟨hrid, hmem⟩, ?_, ?_⟩
  · intro e he hne
    simp [respOutcome, he, hne]
  · rintro (he | he) <;> simp [respOutcome, he]

/-- Witness for C4 at the spec's scenario: the remote replies with
`error: "not found"` and the caller's promise rejects with message
`not found`. -/
theorem error_field_resolution_witness :
    ("w4" : String) ≠ "" ∧ "w4" ∈ (⟨["w4"], []⟩ : CorrState).pending ∧
    respOutcome ⟨some "w4", none, some "not found"⟩ =
      Outcome.rejected "not found" ∧
    handleMessage ⟨["w4"], []⟩ ⟨some "w4", none, some "not found"⟩ =
      ⟨[], [("w4", Outcome.rejected "not found")]⟩ := by
  have h := error_field_resolution ⟨["w4"], []⟩ "w4" none (some "not found")
    (by decide) (List.mem_singleton_self "w4")
  refine ⟨by decide, List.mem_singleton_self "w4",
    h.2.1 "not found" rfl (by decide), ?_⟩
  rw [h.1, h.2.1 "not found" rfl (by decide)]
  rfl

/-- Claim C5, counterexample: a successful completion whose response carried
no `data` field resolves with JavaScript `undefined`, and
`JSON.stringify(undefined)` is `undefined`, so the facade returns
`undefined` (`CallResult.ok none`) — not a string. -/
theorem absent_data_returns_undefined :
    handleMessage ⟨["r1"], []⟩ ⟨some "r1", none, none⟩ =
      ⟨[], [("r1", Outcome.resolved none)]⟩ ∧
    finishFacadeCall (Outcome.resolved none) = CallResult.ok none ∧
    stringifyJs none = none :=
  ⟨rfl, rfl, rfl⟩

/-- Claim C5 (amended): whenever the matched response carries a `data`
payload, the facade operation returns its `JSON.stringify` serialization as a
string; in particular `listProjects` receiving `["proj1","proj2"]` returns
exactly the text `["proj1","proj2"]` with quotes, matching the spec's
scenario. -/
theorem facade_returns_json_string (s : CorrState) (rid : String) (d : Json)
    (hrid : rid ≠ "") (hmem : rid ∈ s.pending) :
    handleMessage s ⟨some rid, some d, none⟩ =
      { pending := s.pending.erase rid,
        completed := s.completed ++ [(rid, Outcome.resolved (some d))] } ∧
    finishFacadeCall (Outcome.resolved (some d)) =
      CallResult.ok (some (jstringify d)) ∧
    jstringify (Json.arr [Json.str "proj1", Json.str "proj2"]) =
      "[\"proj1\",\"proj2\"]" :=
  ⟨hm_pos s ⟨some rid, some d, none⟩ rid rfl ⟨hrid, hmem⟩, rfl, by decide⟩

/-- Witness for C5 at the spec's scenario input. -/
theorem facade_returns_json_string_witness :
    ("w5" : String) ≠ "" ∧ "w5" ∈ (⟨["w5"], []⟩ : CorrState).pending ∧
    finishFacadeCall
      (Outcome.resolved (some (Json.arr [Json.str "proj1", Json.str "proj2"]))) =
      CallResult.ok (some "[\"proj1\",\"proj2\"]") := by
  have h := facade_returns_json_string ⟨["w5"], []⟩ "w5"
    (Json.arr [Json.str "proj1", Json.str "proj2"])
    (by decide) (List.mem_singleton_self "w5")
  refine ⟨by decide, List.mem_singleton_self "w5", ?_⟩
  rw [h.2.1, h.2.2]

/-- Claim C6: over any sequence of inbound responses, in any arrival order,
every completion delivered to the caller with correlation id `i` comes from a
response whose `request_id` is exactly `i` — never from another caller's
response. -/
theorem correlation_matches_own_id (s : CorrState) (rs : List Resp) (i : String)
    (out : Outcome) (h0 : s.completed = [])
    (h : (i, out) ∈ (run s (rs.map Event.message)).completed) :
    ∃ r ∈ rs, r.request_id = some i ∧ out = respOutcome r := by
  rcases run_completion_source s (rs.map Event.message) i out h with
    hmem | ⟨r, hr, hrid, hout⟩ | ⟨hti, -⟩
  · rw [h0] at hmem; cases hmem
  · obtain ⟨r', hr', heq⟩ := List.mem_map.mp hr
    injection heq with heq'
    exact ⟨r', hr', heq' ▸ hrid, heq' ▸ hout⟩
  · obtain ⟨r', -, heq⟩ := List.mem_map.mp hti
    injection heq

/-- Witness for C6: two outstanding requests `"a"` and `"b"` whose responses
arrive out of order; caller `"a"`'s completion came from the response
addressed to `"a"`. -/
theorem correlation_matches_own_id_witness :
    ("a", Outcome.resolved (some (Json.str "da"))) ∈
      (run ⟨["a", "b"], []⟩
        ([⟨some "b", some (Json.str "db"), none⟩,
          ⟨some "a", some (Json.str "da"), none⟩].map Event.message)).completed ∧
    ∃ r ∈ [(⟨some "b", some (Json.str "db"), none⟩ : Resp),
           ⟨some "a", some (Json.str "da"), none⟩],
      r.request_id = some "a" ∧
      Outcome.resolved (some (Json.str "da")) = respOutcome r := by
  have hrun : (run ⟨["a", "b"], []⟩
      ([⟨some "b", some (Json.str "db"), none⟩,
        ⟨some "a", some (Json.str "da"), none⟩].map Event.message)).completed =
      [("b", Outcome.resolved (some (Json.str "db"))),
       ("a", Outcome.resolved (some (Json.str "da")))] := rfl
  have hmem : ("a", Outcome.resolved (some (Json.str "da"))) ∈
      (run ⟨["a", "b"], []⟩
        ([⟨some "b", some (Json.str "db"), none⟩,
          ⟨some "a", some (Json.str "da"), none⟩].map Event.message)).completed := by
    rw [hrun]
    exact List.mem_cons_of_mem _ (List.mem_cons_self _ _)
  exact ⟨hmem, correlation_matches_own_id ⟨["a", "b"], []⟩ _ "a" _ rfl hmem⟩

/-- Claim C7: sending while the socket handle is absent or not OPEN rejects
synchronously with the not-connected error, transmits nothing, adds no
pending-table entry, and arms no 30-second timer. -/
theorem not_connected_fast_fail (ws : Option Nat) (rid ty : String)
    (payload : List (String × Json))
    (h : ws = none ∨ ∃ rs, ws = some rs ∧ rs ≠ 1) :
    sendWebSocketRequest ws rid ty payload =
      { immediateReject := some "WebSocket is not connected", newEntry := none,
        framesSent := [], timerArmed := none } := by
  have hno : wsNotOpen ws = true := by
    rcases h with h | ⟨rs, h, hne⟩
    · subst h; rfl
    · subst h; simp [wsNotOpen, hne]
  simp [sendWebSocketRequest, hno]

/-- Witness for C7 at a socket in the CLOSED readyState (3). -/
theorem not_connected_fast_fail_witness :
    ((some 3 : Option Nat) = none ∨ ∃ rs, (some 3 : Option Nat) = some rs ∧ rs ≠ 1) ∧
    sendWebSocketRequest (some 3) "w7" "get_projects" [] =
      { immediateReject := some "WebSocket is not connected", newEntry := none,
        framesSent := [], timerArmed := none } :=
  ⟨Or.inr ⟨3, rfl, by decide⟩,
   not_connected_fast_fail (some 3) "w7" "get_projects" []
     (Or.inr ⟨3, rfl, by decide⟩)⟩

/-- Claim C8: the `getProjectFile` branch of `_call` validates project name
first, then file path: a falsy `project_name` throws the project-name error
(whatever `file_path` is); a truthy `project_name` with falsy `file_path`
throws the file-path error; in both cases nothing is written to the socket. -/
theorem file_validation_order (ws : Option Nat) (rid : String)
    (pn fp : Option String) :
    (strTruthy pn = false →
      toolCall ⟨"getProjectFile", pn, fp⟩ =
        DispatchResult.threw "Project name is required" ∧
      callFrames ws rid ⟨"getProjectFile", pn, fp⟩ = []) ∧
    (strTruthy pn = true → strTruthy fp = false →
      toolCall ⟨"getProjectFile", pn, fp⟩ =
        DispatchResult.threw "File path is required" ∧
      callFrames ws rid ⟨"getProjectFile", pn, fp⟩ = []) := by
  constructor
  · intro hpn
    have ht : toolCall ⟨"getProjectFile", pn, fp⟩ =
        DispatchResult.threw "Project name is required" := by
      simp [toolCall, hpn]
    exact ⟨ht, by simp [callFrames, ht]⟩
  · intro hpn hfp
    have ht : toolCall ⟨"getProjectFile", pn, fp⟩ =
        DispatchResult.threw "File path is required" := by
      simp [toolCall, hpn, hfp]
    exact ⟨ht, by simp [callFrames, ht]⟩

/-- Witness for C8: both fields missing throws the project-name error (the
spec's validation-ordering scenario), and `getProjectFile("proj1","")`
throws the file-path error. -/
theorem file_validation_order_witness :
    strTruthy none = false ∧
    toolCall ⟨"getProjectFile", none, none⟩ =
      DispatchResult.threw "Project name is required" ∧
    strTruthy (some "proj1") = true ∧ strTruthy (some "") = false ∧
    toolCall ⟨"getProjectFile", some "proj1", some ""⟩ =
      DispatchResult.threw "File path is required" :=
  ⟨rfl,
   ((file_validation_order none "w8" none none).1 rfl).1,
   by decide, by decide,
   ((file_validation_order none "w8" (some "proj1") (some "")).2
     (by decide) (by decide)).1⟩

/-- Claim C9, counterexample: an entry pending at teardown is rejected
afterwards — `cleanup()` leaves the table and the armed 30-second timers
untouched, so the entry's timer later fires and rejects it with
`Request timeout`. -/
theorem pending_rejected_after_cleanup :
    (cleanupTool ⟨⟨true, 0, 0, 1⟩, ⟨["p9"], []⟩⟩).corr.pending = ["p9"] ∧
    (handleTimer (cleanupTool ⟨⟨true, 0, 0, 1⟩, ⟨["p9"], []⟩⟩).corr "p9").completed =
      [("p9", Outcome.rejected "Request timeout")] :=
  ⟨rfl, rfl⟩

/-- Claim C9 (amended): teardown completes nothing itself and leaves the
correlator state untouched, so every entry pending at teardown is
subsequently rejected by its own 30-second timer. -/
theorem cleanup_leaves_pending_timers (s : ToolState) (id : String)
    (hid : id ∈ s.corr.pending) :
    (cleanupTool s).corr = s.corr ∧
    handleTimer (cleanupTool s).corr id =
      { pending := s.corr.pending.erase id,
        completed := s.corr.completed ++
          [(id, Outcome.rejected "Request timeout")] } :=
  ⟨rfl, ht_pos s.corr id hid⟩

/-- Witness for C9's amended statement at a concrete torn-down state. -/
theorem cleanup_leaves_pending_timers_witness :
    ("w9" : String) ∈ (⟨⟨true, 0, 0, 1⟩, ⟨["w9"], []⟩⟩ : ToolState).corr.pending ∧
    handleTimer (cleanupTool ⟨⟨true, 0, 0, 1⟩, ⟨["w9"], []⟩⟩).corr "w9" =
      { pending := [], completed := [("w9", Outcome.rejected "Request timeout")] } := by
  refine ⟨List.mem_singleton_self "w9", ?_⟩
  rw [(cleanup_leaves_pending_timers ⟨⟨true, 0, 0, 1⟩, ⟨["w9"], []⟩⟩ "w9"
    (List.mem_singleton_self "w9")).2]
  rfl

/-- Claim C10: for each of the three facade operations' payload shapes, the
`request_id` field of the serialized envelope equals the key under which the
pending entry is stored, and the payload spread — `project_name` and
`file_path` only — leaves `request_id`, `sender_type` and `type` intact. -/
theorem request_id_matches_table_key (rid pn fp : String) :
    ((sendWebSocketRequest (some 1) rid "get_projects" []).newEntry = some rid ∧
     (sendWebSocketRequest (some 1) rid "get_projects" []).framesSent =
       [buildRequest rid "get_projects" []] ∧
     lookupField (buildRequest rid "get_projects" []) "request_id" =
       some (Json.str rid) ∧
     lookupField (buildRequest rid "get_projects" []) "type" =
       some (Json.str "get_projects")) ∧
    ((sendWebSocketRequest (some 1) rid "get_project_tree"
        [("project_name", Json.str pn)]).newEntry = some rid ∧
     (sendWebSocketRequest (some 1) rid "get_project_tree"
        [("project_name", Json.str pn)]).framesSent =
       [buildRequest rid "get_project_tree" [("project_name", Json.str pn)]] ∧
     lookupField (buildRequest rid "get_project_tree"
        [("project_name", Json.str pn)]) "request_id" = some (Json.str rid) ∧
     lookupField (buildRequest rid "get_project_tree"
        [("project_name", Json.str pn)]) "type" =
       some (Json.str "get_project_tree")) ∧
    ((sendWebSocketRequest (some 1) rid "get_file"
        [("project_name", Json.str pn), ("file_path", Json.str fp)]).newEntry =
       some rid ∧
     (sendWebSocketRequest (some 1) rid "get_file"
        [("project_name", Json.str pn), ("file_path", Json.str fp)]).framesSent =
       [buildRequest rid "get_file"
         [("project_name", Json.str pn), ("file_path", Json.str fp)]] ∧
     lookupField (buildRequest rid "get_file"
        [("project_name", Json.str pn), ("file_path", Json.str fp)])
       "request_id" = some (Json.str rid) ∧
     lookupField (buildRequest rid "get_file"
        [("project_name", Json.str pn), ("file_path", Json.str fp)]) "type" =
       some (Json.str "get_file")) :=
  ⟨⟨rfl, rfl, rfl, rfl⟩, ⟨rfl, rfl, rfl, rfl⟩, ⟨rfl, rfl, rfl, rfl⟩⟩

end DavinciProjectFiles
